import Mathlib

/-!
Verification of the plugin-installation console controllers and the
account-deletion-log service of the dify repository.

The controllers in `api/controllers/console/workspace/plugin.py` are embedded
shallowly: each HTTP handler becomes a Lean function from an explicit request
context (caller role, tenant id), the tenant permission store, its parsed or
raw arguments, and where relevant the uploaded file, to the list of service
invocations it performs together with an `Except`-typed outcome.  Service-layer
functions that live outside the provided sources (`PluginService`,
`PluginPermissionService`, the `plugin_permission_required` decorator) are
modelled from the specification and marked as such in their doc comments.
`services/account_deletion_log_service.py` is embedded directly, including the
erroneous keyword-argument call to SQLAlchemy `Query.filter`.
-/

namespace Dify

/-- A JSON-ish Python value, as delivered by `reqparse` for a `type=list`
argument whose elements are unconstrained. -/
inductive PyVal where
  | str (s : String)
  | int (n : Int)
  | bool (b : Bool)
  | null
deriving DecidableEq, Repr

/-- Python `isinstance(v, str)`. -/
def PyVal.isStr : PyVal → Bool
  | .str _ => true
  | _ => false

/-- Modelled from the spec: install-permission levels of
`TenantPluginPermission` (`models/account.py` is not among the provided
sources); the spec names the levels EVERYONE, ADMIN_OWNER_ONLY, NOBODY. -/
inductive InstallPermission where
  | everyone
  | adminOwnerOnly
  | nobody
deriving DecidableEq, Repr

/-- Modelled from the spec: debug-permission levels, same domain as the
install-permission levels. -/
inductive DebugPermission where
  | everyone
  | adminOwnerOnly
  | nobody
deriving DecidableEq, Repr

/-- One tenant's stored plugin-permission row. -/
structure TenantPluginPermission where
  install_permission : InstallPermission
  debug_permission : DebugPermission
deriving DecidableEq, Repr

/-- Caller roles within a tenant. -/
inductive Role where
  | owner
  | admin
  | editor
  | normal
deriving DecidableEq, Repr

/-- The `is_admin_or_owner` property of an account. -/
def Role.is_admin_or_owner : Role → Bool
  | .owner => true
  | .admin => true
  | _ => false

/-- The permission store: at most one `TenantPluginPermission` row per
tenant id. -/
def PermStore := List (String × TenantPluginPermission)

/-- Modelled from the spec: `PluginPermissionService.get_permission` (not in
the provided sources) looks up the tenant's `TenantPluginPermission` row,
returning `none` when the row is absent. -/
def PluginPermissionService.get_permission (store : PermStore) (tenant_id : String) :
    Option TenantPluginPermission :=
  (store.find? (fun p => p.1 == tenant_id)).map (fun p => p.2)

/-- Modelled from the spec: a caller role satisfies the tenant's
install-permission level; an absent row defaults to allow (EVERYONE). -/
def installAllowed (perm : Option TenantPluginPermission) (role : Role) : Bool :=
  match perm with
  | Option.none => true
  | Option.some p =>
    match p.install_permission with
    | .everyone => true
    | .adminOwnerOnly => role.is_admin_or_owner
    | .nobody => false

/-- Modelled from the spec: a caller role satisfies the tenant's
debug-permission level; an absent row defaults to allow (EVERYONE). -/
def debugAllowed (perm : Option TenantPluginPermission) (role : Role) : Bool :=
  match perm with
  | Option.none => true
  | Option.some p =>
    match p.debug_permission with
    | .everyone => true
    | .adminOwnerOnly => role.is_admin_or_owner
    | .nobody => false

/-- Modelled from the spec: the `plugin_permission_required` decorator (its
implementation is not among the provided sources).  It is consulted before the
handler body runs and grants access only when every flagged requirement is
satisfied by the caller against the tenant's stored (or default) policy. -/
def plugin_permission_check (install_req debug_req : Bool)
    (perm : Option TenantPluginPermission) (role : Role) : Bool :=
  (!install_req || installAllowed perm role) && (!debug_req || debugAllowed perm role)

/-- Request context common to the handlers: the current user's role and the
current tenant id. -/
structure Ctx where
  role : Role
  tenant_id : String
deriving DecidableEq, Repr

/-- The configuration values the handlers read from `dify_config`. -/
structure Config where
  PLUGIN_MAX_PACKAGE_SIZE : Nat
  PLUGIN_REMOTE_INSTALL_HOST : String
  PLUGIN_REMOTE_INSTALL_PORT : Nat
deriving DecidableEq, Repr

/-- Errors a handler can surface synchronously. `forbidden` is werkzeug's
`Forbidden`; `valueError` is a Python `ValueError` with its message. -/
inductive ApiError where
  | forbidden
  | valueError (msg : String)
deriving DecidableEq, Repr

/-- One invocation of a service-layer operation, recorded with the arguments
the controller passes. -/
inductive ServiceCall where
  | upload_pkg (tenant_id : String) (content : List Nat)
  | install_from_local_pkg (tenant_id : String) (ids : List PyVal)
  | install_from_github (tenant_id plugin_unique_identifier repo version package : String)
  | install_from_marketplace_pkg (tenant_id : String) (ids : List PyVal)
  | upgrade_plugin_with_marketplace (tenant_id original_id new_id : String)
  | upgrade_plugin_with_github (tenant_id original_id new_id repo version package : String)
  | change_permission (tenant_id : String) (ip : InstallPermission) (dp : DebugPermission)
deriving DecidableEq, Repr

/-- An uploaded multipart file: the transport-declared `content_length` and
the actual bytes that `read()` would return. werkzeug reports a declared
length of 0 when the part carries none. -/
structure FileStorage where
  content_length : Nat
  bytes : List Nat
deriving DecidableEq, Repr

/-- `PluginDebuggingKeyApi.get`: gated by `debug_required=True`; returns the
tenant's debugging key from `PluginService.get_debugging_key` (an external
lookup, passed here as the oracle `get_debugging_key`) together with the
configured remote-install host and port.  It performs no mutating service
call. -/
def PluginDebuggingKeyApi_get (ctx : Ctx) (store : PermStore) (cfg : Config)
    (get_debugging_key : String → String) :
    List ServiceCall × Except ApiError (String × String × Nat) :=
  if plugin_permission_check false true
      (PluginPermissionService.get_permission store ctx.tenant_id) ctx.role then
    ([], Except.ok (get_debugging_key ctx.tenant_id,
                    cfg.PLUGIN_REMOTE_INSTALL_HOST,
                    cfg.PLUGIN_REMOTE_INSTALL_PORT))
  else
    ([], Except.error ApiError.forbidden)

/-- `PluginUploadFromPkgApi.post`: gated by `install_required=True`; rejects
with `ValueError` when the file's declared `content_length` exceeds
`PLUGIN_MAX_PACKAGE_SIZE`, otherwise reads the body and calls
`PluginService.upload_pkg` on it.  The first component records whether
`file.read()` was executed. -/
def PluginUploadFromPkgApi_post (ctx : Ctx) (store : PermStore) (cfg : Config)
    (file : FileStorage) : Bool × List ServiceCall × Except ApiError Unit :=
  if plugin_permission_check true false
      (PluginPermissionService.get_permission store ctx.tenant_id) ctx.role then
    if cfg.PLUGIN_MAX_PACKAGE_SIZE < file.content_length then
      (false, [], Except.error (ApiError.valueError "File size exceeds the maximum allowed size"))
    else
      (true, [ServiceCall.upload_pkg ctx.tenant_id file.bytes], Except.ok ())
  else
    (false, [], Except.error ApiError.forbidden)

/-- `PluginInstallFromPkgApi.post`: gated by `install_required=True`; raises
`ValueError` if any submitted identifier is not a string, else calls
`PluginService.install_from_local_pkg` with the submitted list. -/
def PluginInstallFromPkgApi_post (ctx : Ctx) (store : PermStore)
    (plugin_unique_identifiers : List PyVal) :
    List ServiceCall × Except ApiError Unit :=
  if plugin_permission_check true false
      (PluginPermissionService.get_permission store ctx.tenant_id) ctx.role then
    if plugin_unique_identifiers.all PyVal.isStr then
      ([ServiceCall.install_from_local_pkg ctx.tenant_id plugin_unique_identifiers],
       Except.ok ())
    else
      ([], Except.error (ApiError.valueError "Invalid plugin unique identifier"))
  else
    ([], Except.error ApiError.forbidden)

/-- `PluginInstallFromGithubApi.post`: gated by `install_required=True`; calls
`PluginService.install_from_github` with the parsed string arguments. -/
def PluginInstallFromGithubApi_post (ctx : Ctx) (store : PermStore)
    (repo version package plugin_unique_identifier : String) :
    List ServiceCall × Except ApiError Unit :=
  if plugin_permission_check true false
      (PluginPermissionService.get_permission store ctx.tenant_id) ctx.role then
    ([ServiceCall.install_from_github ctx.tenant_id plugin_unique_identifier repo version package],
     Except.ok ())
  else
    ([], Except.error ApiError.forbidden)

/-- `PluginInstallFromMarketplaceApi.post`: gated by `install_required=True`;
raises `ValueError` if any submitted identifier is not a string, else calls
`PluginService.install_from_marketplace_pkg` with the submitted list. -/
def PluginInstallFromMarketplaceApi_post (ctx : Ctx) (store : PermStore)
    (plugin_unique_identifiers : List PyVal) :
    List ServiceCall × Except ApiError Unit :=
  if plugin_permission_check true false
      (PluginPermissionService.get_permission store ctx.tenant_id) ctx.role then
    if plugin_unique_identifiers.all PyVal.isStr then
      ([ServiceCall.install_from_marketplace_pkg ctx.tenant_id plugin_unique_identifiers],
       Except.ok ())
    else
      ([], Except.error (ApiError.valueError "Invalid plugin unique identifier"))
  else
    ([], Except.error ApiError.forbidden)

/-- `PluginUpgradeFromMarketplaceApi.post`: gated by `debug_required=True` in
the source; calls `PluginService.upgrade_plugin_with_marketplace`. -/
def PluginUpgradeFromMarketplaceApi_post (ctx : Ctx) (store : PermStore)
    (original_plugin_unique_identifier new_plugin_unique_identifier : String) :
    List ServiceCall × Except ApiError Unit :=
  if plugin_permission_check false true
      (PluginPermissionService.get_permission store ctx.tenant_id) ctx.role then
    ([ServiceCall.upgrade_plugin_with_marketplace ctx.tenant_id
        original_plugin_unique_identifier new_plugin_unique_identifier],
     Except.ok ())
  else
    ([], Except.error ApiError.forbidden)

/-- `PluginUpgradeFromGithubApi.post`: gated by `debug_required=True` in the
source; calls `PluginService.upgrade_plugin_with_github`. -/
def PluginUpgradeFromGithubApi_post (ctx : Ctx) (store : PermStore)
    (original_plugin_unique_identifier new_plugin_unique_identifier repo version package : String) :
    List ServiceCall × Except ApiError Unit :=
  if plugin_permission_check false true
      (PluginPermissionService.get_permission store ctx.tenant_id) ctx.role then
    ([ServiceCall.upgrade_plugin_with_github ctx.tenant_id
        original_plugin_unique_identifier new_plugin_unique_identifier repo version package],
     Except.ok ())
  else
    ([], Except.error ApiError.forbidden)

/-- Python `str()` applied to a JSON value, as flask-restful's `type=str`
coercion does during argument parsing. -/
def pyStr : PyVal → String
  | .str s => s
  | .int n => toString n
  | .bool b => if b then "True" else "False"
  | .null => "None"

/-- Modelled from the spec: the string values of the install-permission enum
(`models/account.py` is not among the provided sources); conversion raises
`ValueError` on any other string, as a Python enum call does. -/
def InstallPermission.ofValue : String → Except ApiError InstallPermission
  | "everyone" => Except.ok InstallPermission.everyone
  | "admin_owner_only" => Except.ok InstallPermission.adminOwnerOnly
  | "nobody" => Except.ok InstallPermission.nobody
  | s => Except.error (ApiError.valueError (s ++ " is not a valid InstallPermission"))

/-- Modelled from the spec: the string values of the debug-permission enum;
conversion raises `ValueError` on any other string. -/
def DebugPermission.ofValue : String → Except ApiError DebugPermission
  | "everyone" => Except.ok DebugPermission.everyone
  | "admin_owner_only" => Except.ok DebugPermission.adminOwnerOnly
  | "nobody" => Except.ok DebugPermission.nobody
  | s => Except.error (ApiError.valueError (s ++ " is not a valid DebugPermission"))

/-- The raw JSON body of a change-permission request before any parsing:
each field is absent or an arbitrary value. -/
structure ChangePermissionRawArgs where
  install_permission : Option PyVal
  debug_permission : Option PyVal
deriving DecidableEq, Repr

/-- Modelled from the spec: `PluginPermissionService.change_permission` (not
in the provided sources) upserts the tenant's permission row and reports
success. -/
def PluginPermissionService.change_permission (store : PermStore) (tenant_id : String)
    (ip : InstallPermission) (dp : DebugPermission) : PermStore × Bool :=
  (⟨tenant_id, ⟨ip, dp⟩⟩ :: store.filter (fun p => p.1 != tenant_id), true)

/-- `PluginChangePermissionApi.post`: first rejects any caller that is not an
admin or owner with `Forbidden`, before parsing arguments; only then parses
the two permission fields (required, `type=str`), converts them to the enum
types, and calls `PluginPermissionService.change_permission`.  Returns the
possibly-updated store together with the recorded calls and the outcome. -/
def PluginChangePermissionApi_post (ctx : Ctx) (store : PermStore)
    (args : ChangePermissionRawArgs) :
    PermStore × List ServiceCall × Except ApiError Bool :=
  if !ctx.role.is_admin_or_owner then
    (store, [], Except.error ApiError.forbidden)
  else
    match args.install_permission, args.debug_permission with
    | Option.some ipv, Option.some dpv =>
      match InstallPermission.ofValue (pyStr ipv), DebugPermission.ofValue (pyStr dpv) with
      | Except.ok ip, Except.ok dp =>
        let r := PluginPermissionService.change_permission store ctx.tenant_id ip dp
        (r.1, [ServiceCall.change_permission ctx.tenant_id ip dp], Except.ok r.2)
      | Except.error e, _ => (store, [], Except.error e)
      | _, Except.error e => (store, [], Except.error e)
    | _, _ =>
      (store, [], Except.error (ApiError.valueError "Missing required parameter in the JSON body"))

/-- `PluginFetchPermissionApi.get`: looks up the tenant's permission row via
`PluginPermissionService.get_permission`; an absent row yields the
EVERYONE/EVERYONE default, a present row yields its stored values. -/
def PluginFetchPermissionApi_get (ctx : Ctx) (store : PermStore) :
    InstallPermission × DebugPermission :=
  match PluginPermissionService.get_permission store ctx.tenant_id with
  | Option.none => (InstallPermission.everyone, DebugPermission.everyone)
  | Option.some permission => (permission.install_permission, permission.debug_permission)

/-- An install task record as held by the task store: its id and owning
tenant id (the attributes the delete and list operations key on). -/
structure InstallTask where
  id : String
  tenant_id : String
deriving DecidableEq, Repr

/-- Modelled from the spec: `PluginService.delete_install_task` (not in the
provided sources) removes the task keyed by tenant and task id from the task
store and returns whether such a task existed; deleting an absent task
returns false rather than failing. -/
def PluginService.delete_install_task (store : List InstallTask)
    (tenant_id task_id : String) : List InstallTask × Bool :=
  (store.filter (fun t => !(t.tenant_id == tenant_id && t.id == task_id)),
   store.any (fun t => t.tenant_id == tenant_id && t.id == task_id))

/-- Modelled from the spec: `PluginService.fetch_install_tasks` (not in the
provided sources) pages through the tenant's tasks, most-recent-first, with a
1-indexed page number; a page beyond the available range yields the empty
sequence. `tasks` is the tenant's task sequence in most-recent-first order. -/
def PluginService.fetch_install_tasks (tasks : List InstallTask)
    (page page_size : Nat) : List InstallTask :=
  (tasks.drop ((page - 1) * page_size)).take page_size

/-- A row or in-memory instance of the `AccountDeletionLog` model: each
attribute is `none` until assigned (or until the database fills a column
default on insert). Timestamps are integers (seconds). -/
structure AccountDeletionLog where
  email : Option String
  reason : Option String
  created_at : Option Int
  updated_at : Option Int
deriving DecidableEq, Repr

/-- `AccountDeletionLogService.create_account_deletion_log`: constructs a
fresh `AccountDeletionLog`, assigns `email`, `reason` and `updated_at` (the
current time), leaves `created_at` unassigned, and returns it without any
`db.session` operation — the database state is threaded through unchanged. -/
def AccountDeletionLogService.create_account_deletion_log
    (db : List AccountDeletionLog) (now : Int) (email reason : String) :
    AccountDeletionLog × List AccountDeletionLog :=
  ({ email := Option.some email
     reason := Option.some reason
     created_at := Option.none
     updated_at := Option.some now }, db)

/-- A Python runtime error surfaced by the embedded code. -/
inductive PyError where
  | typeError (msg : String)
deriving DecidableEq, Repr

/-- SQLAlchemy `Query.filter` called with keyword arguments, as the source
does in `email_in_freeze` with `.filter(email=email)`: `Query.filter` accepts
only positional criterion expressions (keyword filtering is `filter_by`), so
the call raises `TypeError` before any row is fetched. -/
def query_filter_kwargs (_db : List AccountDeletionLog)
    (_kwargs : List (String × String)) : Except PyError (List AccountDeletionLog) :=
  Except.error (PyError.typeError "filter() got an unexpected keyword argument")

/-- The most recent `AccountDeletionLog` among `rows`, by `created_at`
descending, as `order_by(created_at.desc()).first()` would select. -/
def firstByCreatedAtDesc (rows : List AccountDeletionLog) : Option AccountDeletionLog :=
  rows.foldl
    (fun acc l =>
      match acc with
      | Option.none => Option.some l
      | Option.some best =>
        if best.created_at.getD 0 < l.created_at.getD 0 then Option.some l
        else Option.some best)
    Option.none

/-- `AccountDeletionLogService.email_in_freeze`: queries the most recent
deletion-log row for the email and reports whether its `created_at` plus the
cooldown is still strictly in the future.  The source builds the query with
`.filter(email=email)`, which raises `TypeError` (see `query_filter_kwargs`),
so evaluation never reaches the row inspection. `cooldown_days` is
`ACCOUNT_REGISTER_COOLDOWN_DAYS`; times are in seconds. -/
def AccountDeletionLogService.email_in_freeze (db : List AccountDeletionLog)
    (now : Int) (cooldown_days : Int) (email : String) : Except PyError Bool :=
  match query_filter_kwargs db [("email", email)] with
  | Except.error e => Except.error e
  | Except.ok rows =>
    match firstByCreatedAtDesc rows with
    | Option.none => Except.ok false
    | Option.some log =>
      if now < log.created_at.getD 0 + cooldown_days * 86400 then Except.ok true
      else Except.ok false

/-! Concrete fixtures used by counterexamples and witnesses. -/

/-- A normal (non-admin, non-owner) member of tenant t1. -/
def normalCtx : Ctx := ⟨Role.normal, "t1"⟩

/-- A permission store in which tenant t1 restricts installs to admins and
owners but leaves debugging open to everyone. -/
def debugOnlyStore : PermStore :=
  [("t1", ⟨InstallPermission.adminOwnerOnly, DebugPermission.everyone⟩)]

/-- An empty permission store: every tenant falls back to the
EVERYONE/EVERYONE default. -/
def emptyPermStore : PermStore := []

/-- A permission store in which tenant t1 stores the fully permissive
EVERYONE/EVERYONE policy explicitly. -/
def openStore : PermStore :=
  [("t1", ⟨InstallPermission.everyone, DebugPermission.everyone⟩)]

/-- A configuration with a 5-byte maximum package size. -/
def smallCfg : Config := ⟨5, "remote.example", 5003⟩

/-- A 6-byte upload whose transport declared no content length (werkzeug
reports 0 for such multipart parts). -/
def oversizedFile : FileStorage := ⟨0, [1, 2, 3, 4, 5, 6]⟩

/-- Five tasks of tenant t1, most-recent-first. -/
def fiveTasks : List InstallTask :=
  [⟨"k5", "t1"⟩, ⟨"k4", "t1"⟩, ⟨"k3", "t1"⟩, ⟨"k2", "t1"⟩, ⟨"k1", "t1"⟩]

/-- A list find helper: the first match of the key test skips a clean
preamble and lands on the planted row. -/
theorem find_skips_nonmatching (tenant : String)
    (pre post : List (String × TenantPluginPermission)) (p : TenantPluginPermission)
    (hpre : pre.all (fun e => e.1 != tenant) = true) :
    (pre ++ (tenant, p) :: post).find? (fun e => e.1 == tenant) =
      Option.some (tenant, p) := by
  induction pre with
  | nil =>
    simp [List.find?_cons_of_pos]
  | cons e pre ih =>
    simp only [List.all_cons, Bool.and_eq_true, bne_iff_ne, ne_eq] at hpre
    have hfalse : (e.1 == tenant) = false := by simp [hpre.1]
    simp only [List.cons_append, List.find?_cons, hfalse]
    exact ih hpre.2

/-- C1 counterexample: tenant t1 stores install-permission ADMIN_OWNER_ONLY
and debug-permission EVERYONE, so a normal member satisfies only the debug
level.  The claim says every upgrade operation is authorized against the
install-permission level and such a caller is rejected with Forbidden; the
marketplace upgrade handler instead admits the caller and invokes the
upgrade service. -/
theorem upgradeFromMarketplace_admits_debug_only_caller :
    PluginUpgradeFromMarketplaceApi_post normalCtx debugOnlyStore "orig" "next" =
      ([ServiceCall.upgrade_plugin_with_marketplace "t1" "orig" "next"], Except.ok ()) ∧
    PluginUpgradeFromMarketplaceApi_post normalCtx debugOnlyStore "orig" "next" ≠
      ([], Except.error ApiError.forbidden) := by
  refine ⟨rfl, fun h => ?_⟩
  have hfst := congrArg Prod.fst h
  simp [PluginUpgradeFromMarketplaceApi_post, normalCtx, debugOnlyStore,
    plugin_permission_check, debugAllowed, PluginPermissionService.get_permission] at hfst

/-- C1 amended: each of the three install handlers (pkg, GitHub,
marketplace) consults the permission gate before its body runs and rejects
with Forbidden (performing no service call) exactly when the caller role
does not satisfy the install-permission level; the two upgrade handlers are
gated by the debug-permission level instead. -/
theorem install_and_upgrade_permission_gates (ctx : Ctx) (store : PermStore)
    (ids : List PyVal) (repo version package pid orig next : String) :
    ((PluginInstallFromPkgApi_post ctx store ids = ([], Except.error ApiError.forbidden)) ↔
      installAllowed (PluginPermissionService.get_permission store ctx.tenant_id) ctx.role = false) ∧
    ((PluginInstallFromGithubApi_post ctx store repo version package pid =
        ([], Except.error ApiError.forbidden)) ↔
      installAllowed (PluginPermissionService.get_permission store ctx.tenant_id) ctx.role = false) ∧
    ((PluginInstallFromMarketplaceApi_post ctx store ids = ([], Except.error ApiError.forbidden)) ↔
      installAllowed (PluginPermissionService.get_permission store ctx.tenant_id) ctx.role = false) ∧
    ((PluginUpgradeFromMarketplaceApi_post ctx store orig next =
        ([], Except.error ApiError.forbidden)) ↔
      debugAllowed (PluginPermissionService.get_permission store ctx.tenant_id) ctx.role = false) ∧
    ((PluginUpgradeFromGithubApi_post ctx store orig next repo version package =
        ([], Except.error ApiError.forbidden)) ↔
      debugAllowed (PluginPermissionService.get_permission store ctx.tenant_id) ctx.role = false) := by
  refine ⟨?_, ?_, ?_, ?_, ?_⟩ <;>
  · simp only [PluginInstallFromPkgApi_post, PluginInstallFromGithubApi_post,
      PluginInstallFromMarketplaceApi_post, PluginUpgradeFromMarketplaceApi_post,
      PluginUpgradeFromGithubApi_post, plugin_permission_check]
    rcases Bool.eq_false_or_eq_true
        (installAllowed (PluginPermissionService.get_permission store ctx.tenant_id) ctx.role)
        with hI | hI <;>
      rcases Bool.eq_false_or_eq_true
          (debugAllowed (PluginPermissionService.get_permission store ctx.tenant_id) ctx.role)
          with hD | hD <;>
        simp [hI, hD] <;> split <;> simp

/-- C1 witness: the amended theorem applied to the fixture tenant — a normal
member blocked on install-from-pkg by the ADMIN_OWNER_ONLY install level. -/
theorem install_and_upgrade_permission_gates_witness :
    PluginInstallFromPkgApi_post normalCtx debugOnlyStore [] =
      ([], Except.error ApiError.forbidden) :=
  (install_and_upgrade_permission_gates normalCtx debugOnlyStore [] "r" "v" "p" "i" "o" "n").1.mpr
    (by decide)

/-- C2 counterexample: against a 5-byte limit, a 6-byte package whose
transport declared no content length (content_length 0) is accepted: the
body is read and the upload service is invoked with the oversized bytes, so
the upload does not fail exactly when the byte length exceeds the limit. -/
theorem uploadPkg_accepts_oversized_bytes :
    PluginUploadFromPkgApi_post normalCtx emptyPermStore smallCfg oversizedFile =
      (true, [ServiceCall.upload_pkg "t1" [1, 2, 3, 4, 5, 6]], Except.ok ()) ∧
    smallCfg.PLUGIN_MAX_PACKAGE_SIZE < oversizedFile.bytes.length := by
  exact ⟨rfl, by decide⟩

/-- C2 amended: for an install-authorized caller, the upload fails with the
package-too-large ValueError exactly when the transport-declared
content_length exceeds the configured maximum, the check happens before the
body is read (on failure the body is not read and the upload service is
never invoked), and otherwise the body is read and passed to the upload
service; the actual byte length is never compared against the limit. -/
theorem uploadPkg_checks_declared_content_length (ctx : Ctx) (store : PermStore)
    (cfg : Config) (file : FileStorage)
    (hgate : installAllowed (PluginPermissionService.get_permission store ctx.tenant_id) ctx.role = true) :
    (cfg.PLUGIN_MAX_PACKAGE_SIZE < file.content_length →
      PluginUploadFromPkgApi_post ctx store cfg file =
        (false, [], Except.error (ApiError.valueError "File size exceeds the maximum allowed size"))) ∧
    (file.content_length ≤ cfg.PLUGIN_MAX_PACKAGE_SIZE →
      PluginUploadFromPkgApi_post ctx store cfg file =
        (true, [ServiceCall.upload_pkg ctx.tenant_id file.bytes], Except.ok ())) := by
  constructor <;> intro hsize <;>
    simp [PluginUploadFromPkgApi_post, plugin_permission_check, hgate, hsize,
      Nat.not_lt.mpr hsize]

/-- C2 witness: the amended theorem at a file whose declared length 9
exceeds the limit 5 — rejected without reading the body or calling the
upload service. -/
theorem uploadPkg_checks_declared_content_length_witness :
    PluginUploadFromPkgApi_post normalCtx emptyPermStore smallCfg ⟨9, [1]⟩ =
      (false, [], Except.error (ApiError.valueError "File size exceeds the maximum allowed size")) :=
  (uploadPkg_checks_declared_content_length normalCtx emptyPermStore smallCfg ⟨9, [1]⟩
    (by decide)).1 (by decide)

/-- C3: for an install-authorized caller, both batch install handlers (pkg
and marketplace) raise the ValueError synchronously when some submitted
identifier is not a string, performing no service call, and otherwise invoke
their install service with exactly the submitted list. -/
theorem batch_install_validates_identifier_strings (ctx : Ctx) (store : PermStore)
    (ids : List PyVal)
    (hgate : installAllowed (PluginPermissionService.get_permission store ctx.tenant_id) ctx.role = true) :
    (ids.all PyVal.isStr = false →
      PluginInstallFromPkgApi_post ctx store ids =
        ([], Except.error (ApiError.valueError "Invalid plugin unique identifier")) ∧
      PluginInstallFromMarketplaceApi_post ctx store ids =
        ([], Except.error (ApiError.valueError "Invalid plugin unique identifier"))) ∧
    (ids.all PyVal.isStr = true →
      PluginInstallFromPkgApi_post ctx store ids =
        ([ServiceCall.install_from_local_pkg ctx.tenant_id ids], Except.ok ()) ∧
      PluginInstallFromMarketplaceApi_post ctx store ids =
        ([ServiceCall.install_from_marketplace_pkg ctx.tenant_id ids], Except.ok ())) := by
  constructor <;> intro hall <;>
    simp [PluginInstallFromPkgApi_post, PluginInstallFromMarketplaceApi_post,
      plugin_permission_check, hgate, hall]

/-- C3 witness: a batch containing the non-string identifier 3 is rejected
with the ValueError by the pkg variant. -/
theorem batch_install_validates_identifier_strings_witness :
    PluginInstallFromPkgApi_post normalCtx emptyPermStore [PyVal.int 3] =
      ([], Except.error (ApiError.valueError "Invalid plugin unique identifier")) :=
  ((batch_install_validates_identifier_strings normalCtx emptyPermStore [PyVal.int 3]
    (by decide)).1 (by decide)).1

/-- C4: a caller that is not an admin or owner is rejected with Forbidden by
the change-permission handler before any argument is parsed or converted —
for every raw argument object and every stored policy (the permission store
is returned unchanged and no service call is made). -/
theorem changePermission_forbidden_for_non_admin (ctx : Ctx) (store : PermStore)
    (args : ChangePermissionRawArgs)
    (h : ctx.role.is_admin_or_owner = false) :
    PluginChangePermissionApi_post ctx store args =
      (store, [], Except.error ApiError.forbidden) := by
  simp [PluginChangePermissionApi_post, h]

/-- C4 witness: a normal member of a tenant whose stored policy is the
permissive EVERYONE/EVERYONE, submitting malformed arguments, is still
rejected with Forbidden and the store is unchanged. -/
theorem changePermission_forbidden_for_non_admin_witness :
    PluginChangePermissionApi_post normalCtx openStore
        ⟨Option.some (PyVal.int 7), Option.none⟩ =
      (openStore, [], Except.error ApiError.forbidden) :=
  changePermission_forbidden_for_non_admin normalCtx openStore
    ⟨Option.some (PyVal.int 7), Option.none⟩ (by decide)

/-- C5: fetching the permission returns the EVERYONE/EVERYONE default when
no row of the store belongs to the tenant, and returns exactly the stored
install and debug values when a row for the tenant is present (the first
such row, the store holding at most one per tenant). -/
theorem fetchPermission_default_and_stored (ctx : Ctx) (store : PermStore) :
    (store.all (fun e => e.1 != ctx.tenant_id) = true →
      PluginFetchPermissionApi_get ctx store =
        (InstallPermission.everyone, DebugPermission.everyone)) ∧
    (∀ pre post p, store = pre ++ (ctx.tenant_id, p) :: post →
      pre.all (fun e => e.1 != ctx.tenant_id) = true →
      PluginFetchPermissionApi_get ctx store =
        (p.install_permission, p.debug_permission)) := by
  constructor
  · intro habsent
    have hnone : store.find? (fun e => e.1 == ctx.tenant_id) = Option.none := by
      rw [List.find?_eq_none]
      intro x hx
      have := List.all_eq_true.mp habsent x hx
      simpa using this
    simp [PluginFetchPermissionApi_get, PluginPermissionService.get_permission, hnone]
  · intro pre post p hsplit hpre
    have hfind := find_skips_nonmatching ctx.tenant_id pre post p hpre
    simp [PluginFetchPermissionApi_get, PluginPermissionService.get_permission,
      hsplit, hfind]

/-- C5 witness: the default branch on a store holding only another tenant,
via the theorem. -/
theorem fetchPermission_default_and_stored_witness :
    PluginFetchPermissionApi_get normalCtx
        [("t2", ⟨InstallPermission.nobody, DebugPermission.nobody⟩)] =
      (InstallPermission.everyone, DebugPermission.everyone) :=
  (fetchPermission_default_and_stored normalCtx
    [("t2", ⟨InstallPermission.nobody, DebugPermission.nobody⟩)]).1 (by decide)

/-- C6: task deletion returns true exactly when a task of the tenant with
that id exists in the store, never raising; deleting again after a delete
(the already-deleted case) returns false. -/
theorem deleteTask_idempotent (store : List InstallTask) (tenant_id task_id : String) :
    ((PluginService.delete_install_task store tenant_id task_id).2 = true ↔
      ∃ t ∈ store, t.tenant_id = tenant_id ∧ t.id = task_id) ∧
    (PluginService.delete_install_task
        (PluginService.delete_install_task store tenant_id task_id).1
        tenant_id task_id).2 = false := by
  constructor
  · simp [PluginService.delete_install_task, List.any_eq_true]
  · simp [PluginService.delete_install_task, List.any_eq_false, List.mem_filter]
    tauto

/-- C6 witness: on a one-task store the first delete reports true and the
repeated delete reports false, via the theorem at that store. -/
theorem deleteTask_idempotent_witness :
    (PluginService.delete_install_task [⟨"k1", "t1"⟩] "t1" "k1").2 = true ∧
    (PluginService.delete_install_task
        (PluginService.delete_install_task [⟨"k1", "t1"⟩] "t1" "k1").1 "t1" "k1").2 = false :=
  ⟨(deleteTask_idempotent [⟨"k1", "t1"⟩] "t1" "k1").1.mpr
      ⟨⟨"k1", "t1"⟩, by decide, rfl, rfl⟩,
    (deleteTask_idempotent [⟨"k1", "t1"⟩] "t1" "k1").2⟩

/-- C7: task listing is 1-indexed — page 1 is the first page-size prefix of
the most-recent-first task sequence — and a page whose offset lies at or
beyond the end of the sequence yields the empty list rather than an error
(the operation is total). -/
theorem listTasks_beyond_range_empty (tasks : List InstallTask) (page page_size : Nat)
    (hpage : 1 ≤ page) :
    (tasks.length ≤ (page - 1) * page_size →
      PluginService.fetch_install_tasks tasks page page_size = []) ∧
    (page = 1 →
      PluginService.fetch_install_tasks tasks page page_size = tasks.take page_size) := by
  constructor
  · intro hbeyond
    simp [PluginService.fetch_install_tasks, List.drop_eq_nil_of_le hbeyond]
  · intro h1
    simp [PluginService.fetch_install_tasks, h1]

/-- C7 witness: page 1000 with page size 10 on a tenant with 5 tasks is the
empty sequence, via the theorem. -/
theorem listTasks_beyond_range_empty_witness :
    PluginService.fetch_install_tasks fiveTasks 1000 10 = [] :=
  (listTasks_beyond_range_empty fiveTasks 1000 10 (by decide)).1 (by decide)

/-- C8: for a caller satisfying the debug permission, the debugging-key
handler returns exactly the triple of the debugging key the plugin service
reports for the tenant and the configured remote-install host and port, and
performs no mutating service call — this holds for every key oracle, so the
handler reads nothing else and mutates nothing. -/
theorem debuggingKey_returns_key_host_port (ctx : Ctx) (store : PermStore)
    (cfg : Config) (get_debugging_key : String → String)
    (hgate : debugAllowed (PluginPermissionService.get_permission store ctx.tenant_id) ctx.role = true) :
    PluginDebuggingKeyApi_get ctx store cfg get_debugging_key =
      ([], Except.ok (get_debugging_key ctx.tenant_id,
                      cfg.PLUGIN_REMOTE_INSTALL_HOST,
                      cfg.PLUGIN_REMOTE_INSTALL_PORT)) := by
  simp [PluginDebuggingKeyApi_get, plugin_permission_check, hgate]

/-- C8 witness: the theorem at a concrete tenant, oracle and configuration. -/
theorem debuggingKey_returns_key_host_port_witness :
    PluginDebuggingKeyApi_get normalCtx emptyPermStore smallCfg (fun t => t ++ "-key") =
      ([], Except.ok ("t1-key", "remote.example", 5003)) :=
  debuggingKey_returns_key_host_port normalCtx emptyPermStore smallCfg
    (fun t => t ++ "-key") (by decide)

/-- C9: the claim describes the intended freeze check, but the source builds
the query with Query.filter called with a keyword argument, which raises
TypeError before any row is read: for every database state, time, cooldown
and email — in particular for an email with no deletion record, where the
claim requires the value False — the function raises instead of returning a
boolean. -/
theorem email_in_freeze_always_raises_typeError (db : List AccountDeletionLog)
    (now cooldown_days : Int) (email : String) :
    AccountDeletionLogService.email_in_freeze db now cooldown_days email =
      Except.error (PyError.typeError "filter() got an unexpected keyword argument") :=
  rfl

/-- C10: the deletion-log constructor is pure — the returned record carries
exactly the given email and reason, its updated_at is the given current
time, its created_at is left unset, and the database state is returned
unchanged (no write is performed). -/
theorem create_account_deletion_log_pure (db : List AccountDeletionLog)
    (now : Int) (email reason : String) :
    (AccountDeletionLogService.create_account_deletion_log db now email reason).1 =
      { email := Option.some email
        reason := Option.some reason
        created_at := Option.none
        updated_at := Option.some now } ∧
    (AccountDeletionLogService.create_account_deletion_log db now email reason).2 = db :=
  ⟨rfl, rfl⟩

end Dify
